import Mathlib

/-!
Verification of the shared countdown-timer service (`server.py`).

The embedding models:
* `TimerState` — the in-memory timer state (`seconds`, `running`, `last_update`);
  Python ints are `ℤ` (arbitrary precision) and wall-clock timestamps are `ℚ`
  (idealising `time.time()` floats as exact rationals).
* `pyInt` — Python's `int()` applied to a real number: truncation toward zero.
* `load_state` — the startup recovery routine (lines 27-51 of `server.py`).
* `tick` — one firing of the running-branch of `broadcast_time`
  (lines 75-84 of `server.py`).
* `broadcastSends` / `broadcastPass` — the per-tick fan-out loop over the client
  registry with deferred removal of failed connections (lines 86-93).
* `adjust_timer` / `set_timer` — the `/adjust` and `/set` HTTP handlers together
  with `save_state` persistence (lines 179-198), over a `World` that pairs the
  in-memory state with the on-disk file content.
-/

/-- Python `int()` applied to a rational: truncation toward zero
(`int(2.7) = 2`, `int(-2.7) = -2`). -/
def pyInt (q : ℚ) : ℤ :=
  if 0 ≤ q then ⌊q⌋ else ⌈q⌉

/-- In-memory timer state: fields `seconds`, `running`, `last_update` of the
Python class `TimerState` (the `clients` set is modelled separately for the
broadcast loop). -/
structure TimerState where
  seconds : ℤ
  running : Bool
  last_update : ℚ
deriving DecidableEq, Repr

/-- `TimerState.__init__`: fresh state `{seconds = 0, running = False,
last_update = time.time()}`; the construction time is passed explicitly. -/
def TimerState.init (now : ℚ) : TimerState :=
  ⟨0, false, now⟩

/-- A parsed on-disk snapshot with all three required fields present. -/
structure Snapshot where
  seconds : ℤ
  running : Bool
  last_update : ℚ
deriving DecidableEq, Repr

/-- What `load_state` can find on disk: no file, a file `json.load` cannot
parse, a parsed object missing one of the required keys (`KeyError`), or a
complete snapshot. -/
inductive FileContent
  | absent
  | corrupt
  | missingField
  | snapshot (d : Snapshot)
deriving DecidableEq, Repr

/-- `load_state` (lines 27-51): on a complete snapshot, if it was running,
`elapsed = max(0, now - last_update)`, `seconds = max(0, saved - int(elapsed))`,
`running = seconds > 0`; if not running, `seconds` and `running = False` are
restored verbatim; `last_update = now` in both branches. A missing file takes
the `else` branch and any exception (parse error, missing key) is caught; both
leave a fresh `TimerState()`. -/
def load_state : FileContent → ℚ → TimerState
  | .snapshot d, now =>
      if d.running then
        let elapsed : ℚ := max 0 (now - d.last_update)
        let s : ℤ := max 0 (d.seconds - pyInt elapsed)
        ⟨s, decide (0 < s), now⟩
      else
        ⟨d.seconds, false, now⟩
  | _, now => TimerState.init now

/-- The running branch of one `broadcast_time` iteration (lines 75-84):
`elapsed = now - last_update` (no clamp), `seconds = max(0, seconds -
int(elapsed))`, `last_update = now`, and `running` is cleared when the new
`seconds` is `≤ 0`. When not running the state is untouched. -/
def tick (s : TimerState) (now : ℚ) : TimerState :=
  if s.running then
    let elapsed : ℚ := now - s.last_update
    let seconds : ℤ := max 0 (s.seconds - pyInt elapsed)
    let running : Bool := if seconds ≤ 0 then false else s.running
    ⟨seconds, running, now⟩
  else s

/-- One step of the broadcast `for` loop (lines 88-92): a successful send
appends the connection to the sent list, a failing send adds it to the
`disconnected` set (`List.insert` mirrors `set.add`). -/
def sendStep (failsSend : ℕ → Bool) (acc : List ℕ × List ℕ) (ws : ℕ) :
    List ℕ × List ℕ :=
  if failsSend ws then (acc.1, acc.2.insert ws) else (acc.1 ++ [ws], acc.2)

/-- The whole broadcast `for` loop: fold `sendStep` over the registry,
starting from no sends and an empty `disconnected` set. Returns
(connections the payload reached, failing connections collected). -/
def broadcastSends (clients : List ℕ) (failsSend : ℕ → Bool) :
    List ℕ × List ℕ :=
  clients.foldl (sendStep failsSend) ([], [])

/-- `timer_state.clients.difference_update(disconnected)` (line 93): keep the
registry members not in the collected `disconnected` set. -/
def applyRemovals (clients disc : List ℕ) : List ℕ :=
  clients.filter (fun ws => decide (ws ∉ disc))

/-- One full broadcast pass (lines 86-93): run the send loop, then apply the
removals after the loop completes. Returns (connections the payload reached,
registry after the pass). -/
def broadcastPass (clients : List ℕ) (failsSend : ℕ → Bool) :
    List ℕ × List ℕ :=
  let r := broadcastSends clients failsSend
  (r.1, applyRemovals clients r.2)

/-- The process-wide mutable world the HTTP handlers act on: the in-memory
state plus the on-disk file written by `save_state`. -/
structure World where
  state : TimerState
  file : FileContent
deriving DecidableEq, Repr

/-- `save_state` (lines 54-65): overwrite the file with the snapshot of the
current in-memory state (the successful path; failure is swallowed and leaves
the file as it was, which no claim here depends on). -/
def save_state (w : World) : World :=
  { w with file := .snapshot ⟨w.state.seconds, w.state.running, w.state.last_update⟩ }

/-- The `status` field of the handlers' JSON bodies. -/
inductive RespStatus
  | reset | started | paused | adjusted | settled
deriving DecidableEq, Repr

/-- Result of one HTTP control request: the handler's JSON body, or the
client-error (422) response produced by the framework's parameter validation. -/
inductive HttpResult
  | ok (status : RespStatus) (seconds : ℤ)
  | clientError
deriving DecidableEq, Repr

/-- A required integer query parameter as the framework hands it over:
present and integral, or missing, or present but not parseable as an int. -/
inductive QueryParam
  | missing
  | invalid
  | value (n : ℤ)
deriving DecidableEq, Repr

/-- Modelled from the spec: the transport framework's validation of a required
`int` query parameter (FastAPI's `Query(...)`, declared at lines 180 and 191
but executed inside the framework, outside `src/`). A missing or non-integer
parameter yields a client-error response before the handler body runs; the
declarations carry no non-negativity constraint, so every integer — negative
included — reaches the handler. `adjust_timer` (lines 179-187): `seconds =
max(0, seconds + delta)`, `last_update = now`, then `save_state`, responding
`{status: "adjusted", seconds}`. -/
def adjust_timer (w : World) (p : QueryParam) (now : ℚ) : World × HttpResult :=
  match p with
  | .value delta =>
      let s2 : TimerState := ⟨max 0 (w.state.seconds + delta), w.state.running, now⟩
      let w2 := save_state { w with state := s2 }
      (w2, .ok .adjusted s2.seconds)
  | _ => (w, .clientError)

/-- Modelled from the spec: same framework validation as `adjust_timer`.
`set_timer` (lines 190-198): `seconds = max(0, seconds_param)`, `last_update
= now`, then `save_state`, responding `{status: "set", seconds}` (the status
literal `"set"` is the constructor `RespStatus.settled`). -/
def set_timer (w : World) (p : QueryParam) (now : ℚ) : World × HttpResult :=
  match p with
  | .value v =>
      let s2 : TimerState := ⟨max 0 v, w.state.running, now⟩
      let w2 := save_state { w with state := s2 }
      (w2, .ok .settled s2.seconds)
  | _ => (w, .clientError)

/-! ## Helper lemmas -/

/-- On a non-negative argument, Python truncation agrees with `⌊·⌋`. -/
theorem pyInt_of_nonneg (q : ℚ) (h : 0 ≤ q) : pyInt q = ⌊q⌋ :=
  if_pos h

/-- Python truncation of a non-negative argument is non-negative. -/
theorem pyInt_nonneg (q : ℚ) (h : 0 ≤ q) : 0 ≤ pyInt q := by
  rw [pyInt_of_nonneg q h]
  exact Int.floor_nonneg.mpr h

/-- Python truncation of an argument in `[0, 1)` is `0`. -/
theorem pyInt_eq_zero (q : ℚ) (h0 : 0 ≤ q) (h1 : q < 1) : pyInt q = 0 := by
  rw [pyInt_of_nonneg q h0, Int.floor_eq_zero_iff]
  exact ⟨h0, h1⟩

/-- The sent-list built by the broadcast loop: exactly the prefix already sent
followed by the connections whose send succeeds, in registry order. -/
theorem foldl_sendStep_fst (f : ℕ → Bool) :
    ∀ (clients : List ℕ) (acc : List ℕ × List ℕ),
      (List.foldl (sendStep f) acc clients).1 =
        acc.1 ++ clients.filter (fun ws => !f ws)
  | [], acc => by simp
  | ws :: rest, acc => by
    cases hf : f ws
    · simp [sendStep, hf, foldl_sendStep_fst f rest]
    · simp [sendStep, hf, foldl_sendStep_fst f rest]

/-- Membership in the `disconnected` set built by the broadcast loop:
the connections already collected plus the iterated ones whose send fails. -/
theorem foldl_sendStep_snd_mem (f : ℕ → Bool) :
    ∀ (clients : List ℕ) (acc : List ℕ × List ℕ) (ws : ℕ),
      (ws ∈ (List.foldl (sendStep f) acc clients).2 ↔
        ws ∈ acc.2 ∨ (ws ∈ clients ∧ f ws = true))
  | [], acc, ws => by simp
  | c :: rest, acc, ws => by
    cases hf : f c
    · rw [List.foldl_cons,
        show sendStep f acc c = (acc.1 ++ [c], acc.2) from by simp [sendStep, hf],
        foldl_sendStep_snd_mem f rest _ ws]
      simp only [List.mem_cons]
      constructor
      · rintro (h | ⟨hm, hfw⟩)
        · exact Or.inl h
        · exact Or.inr ⟨Or.inr hm, hfw⟩
      · rintro (h | ⟨hm | hm, hfw⟩)
        · exact Or.inl h
        · subst hm; simp [hf] at hfw
        · exact Or.inr ⟨hm, hfw⟩
    · rw [List.foldl_cons,
        show sendStep f acc c = (acc.1, acc.2.insert c) from by simp [sendStep, hf],
        foldl_sendStep_snd_mem f rest _ ws]
      simp only [List.mem_insert_iff, List.mem_cons]
      constructor
      · rintro (⟨h | h⟩ | ⟨hm, hfw⟩)
        · subst h; exact Or.inr ⟨Or.inl rfl, hf⟩
        · exact Or.inl h
        · exact Or.inr ⟨Or.inr hm, hfw⟩
      · rintro (h | ⟨hm | hm, hfw⟩)
        · exact Or.inl (Or.inr h)
        · subst hm; exact Or.inl (Or.inl rfl)
        · exact Or.inr ⟨hm, hfw⟩

/-! ## Claim C1 -/

/-- Claim C1, counterexample: the claim quantifies over every wall-clock value
`now`, including `now` earlier than `last_update`, asserting `tick` still never
increases `seconds`. The tick path (line 77) does not clamp `elapsed`: from
running state `{seconds = 5, last_update = 10}`, a tick at `now = 7` computes
`int(-3) = -3` and `max(0, 5 - (-3)) = 8 > 5`, so `seconds` increases. -/
theorem tick_clock_jump_increases_seconds :
    (TimerState.mk 5 true 10).seconds < (tick ⟨5, true, 10⟩ 7).seconds := by
  have h : ⌈(-3 : ℚ)⌉ = -3 := by
    rw [Int.ceil_eq_iff]
    norm_num
  norm_num [tick, pyInt, h, max_eq_right]

/-- Claim C1 (amended): for every running state of the data model
(`seconds ≥ 0`) and every `now` not earlier than `last_update`, one tick step
never increases `seconds`. (As stated the claim also covered `now` earlier
than `last_update`; the tick path does not clamp `elapsed`, so that case
fails — see the counterexample.) -/
theorem tick_monotone_without_clock_jump (s : TimerState) (now : ℚ)
    (h0 : 0 ≤ s.seconds) (h1 : s.last_update ≤ now) :
    (tick s now).seconds ≤ s.seconds := by
  cases hr : s.running
  · simp [tick, hr]
  · have hp : 0 ≤ pyInt (now - s.last_update) :=
      pyInt_nonneg _ (sub_nonneg.mpr h1)
    simp only [tick, hr, if_true]
    exact max_le h0 (by omega)

/-- Claim C1, witness: the amended theorem applied at the running state
`{seconds = 5, last_update = 0}` ticked at `now = 2`. -/
theorem tick_monotone_without_clock_jump_witness :
    (tick ⟨5, true, 0⟩ 2).seconds ≤ (TimerState.mk 5 true 0).seconds :=
  tick_monotone_without_clock_jump ⟨5, true, 0⟩ 2 (by norm_num) (by norm_num)

/-! ## Claim C2 -/

/-- Claim C2, counterexample: the claim asserts `seconds ≥ 0` after
`load_state` for every on-disk snapshot content, including one with negative
saved seconds and `running = false`. The non-running branch (line 42) restores
the saved value verbatim, so the snapshot `{seconds = -5, running = false}`
loads to in-memory `seconds = -5 < 0`. -/
theorem load_state_negative_nonrunning_snapshot :
    (load_state (.snapshot ⟨-5, false, 0⟩) 3).seconds < 0 := by
  decide

/-- Claim C2 (amended): the invariant `seconds ≥ 0` holds after `load_state`
of an absent, unparseable or field-missing file and of every snapshot with
`running = true`; after `adjust(delta)` for every integer `delta`; after
`set(value)` for every integer `value`; and after every tick of a running
state (and every tick from a state already satisfying the invariant). It does
not hold after `load_state` of a snapshot with negative saved seconds and
`running = false`, whose value is restored verbatim. -/
theorem seconds_nonneg_after_operations :
    (∀ now : ℚ, 0 ≤ (load_state .absent now).seconds ∧
      0 ≤ (load_state .corrupt now).seconds ∧
      0 ≤ (load_state .missingField now).seconds) ∧
    (∀ (d : Snapshot) (now : ℚ), d.running = true →
      0 ≤ (load_state (.snapshot d) now).seconds) ∧
    (∀ (w : World) (delta : ℤ) (now : ℚ),
      0 ≤ ((adjust_timer w (.value delta) now).1).state.seconds) ∧
    (∀ (w : World) (v : ℤ) (now : ℚ),
      0 ≤ ((set_timer w (.value v) now).1).state.seconds) ∧
    (∀ (s : TimerState) (now : ℚ), s.running = true ∨ 0 ≤ s.seconds →
      0 ≤ (tick s now).seconds) := by
  refine ⟨fun now => ⟨le_refl 0, le_refl 0, le_refl 0⟩,
    fun d now hr => ?_, fun w delta now => ?_, fun w v now => ?_,
    fun s now h => ?_⟩
  · simp only [load_state, hr, if_true]
    exact le_max_left _ _
  · exact le_max_left _ _
  · exact le_max_left _ _
  · by_cases hr : s.running = true
    · simp only [tick, hr, if_true]
      exact le_max_left _ _
    · rcases h with h | h
      · exact absurd h hr
      · simpa [tick, hr] using h

/-- Claim C2, witness: the amended invariant applied to a running snapshot
load and to a tick of a running state. -/
theorem seconds_nonneg_after_operations_witness :
    0 ≤ (load_state (.snapshot ⟨7, true, 0⟩) 3).seconds ∧
    0 ≤ (tick ⟨2, true, 0⟩ 9).seconds :=
  ⟨seconds_nonneg_after_operations.2.1 ⟨7, true, 0⟩ 3 rfl,
    seconds_nonneg_after_operations.2.2.2.2 ⟨2, true, 0⟩ 9 (Or.inl rfl)⟩

/-! ## Claim C4 -/

/-- Claim C4: for every prior state with seconds value `s` and every integer
`delta`, `adjust(delta)` results in `seconds = max(0, s + delta)`, updates
`last_update` to the request time, and leaves `running` unchanged. -/
theorem adjust_spec (w : World) (delta : ℤ) (now : ℚ) :
    ((adjust_timer w (.value delta) now).1).state.seconds =
      max 0 (w.state.seconds + delta) ∧
    ((adjust_timer w (.value delta) now).1).state.running = w.state.running ∧
    ((adjust_timer w (.value delta) now).1).state.last_update = now :=
  ⟨rfl, rfl, rfl⟩

/-! ## Claim C5 -/

/-- Claim C5: whenever the state file is absent, unparseable, or missing a
required field, `load_state` completes (it is a total function of the modelled
file content) and yields the default state
`{seconds = 0, running = false, last_update = now}`. -/
theorem load_state_defaults_on_bad_file (fc : FileContent) (now : ℚ)
    (h : fc = .absent ∨ fc = .corrupt ∨ fc = .missingField) :
    load_state fc now = ⟨0, false, now⟩ := by
  rcases h with h | h | h <;> subst h <;> rfl

/-- Claim C5, witness: the default-state theorem applied to an absent file. -/
theorem load_state_defaults_on_bad_file_witness :
    load_state .absent 7 = ⟨0, false, 7⟩ :=
  load_state_defaults_on_bad_file .absent 7 (Or.inl rfl)

/-! ## Claim C6 -/

/-- Claim C6: after any tick, `seconds = 0` implies `running = false` (the
tick that brings `seconds` to 0 — or below, before flooring — clears `running`
in the same step), and a tick of a running state never produces negative
`seconds`. -/
theorem tick_floor_at_zero (s : TimerState) (now : ℚ) :
    ((tick s now).seconds = 0 → (tick s now).running = false) ∧
    (s.running = true → 0 ≤ (tick s now).seconds) := by
  cases hr : s.running
  · have ht : tick s now = s := by simp [tick, hr]
    rw [ht]
    exact ⟨fun _ => hr, fun hc => by simp [hr] at hc⟩
  · constructor
    · intro h
      simp only [tick, hr, if_true] at h ⊢
      rw [h]
      simp
    · intro _
      simp only [tick, hr, if_true]
      exact le_max_left _ _

/-- Claim C6, witness: the theorem applied at the running state
`{seconds = 1, last_update = 0}` ticked at `now = 5`, which hits zero. -/
theorem tick_floor_at_zero_witness :
    (tick ⟨1, true, 0⟩ 5).running = false ∧ 0 ≤ (tick ⟨1, true, 0⟩ 5).seconds :=
  ⟨(tick_floor_at_zero ⟨1, true, 0⟩ 5).1 (by norm_num [tick, pyInt]),
    (tick_floor_at_zero ⟨1, true, 0⟩ 5).2 rfl⟩

/-! ## Claim C3 -/

/-- Claim C3: for every persisted snapshot loaded at a wall-clock time not
earlier than its `last_update`, if the snapshot was running, `load_state`
produces `seconds = max(0, saved - floor(now - last_update))`, sets `running`
exactly when that value is positive, and stamps `last_update = now`; a
non-running snapshot has its `seconds` and `running = false` restored
verbatim (with `last_update = now`). -/
theorem load_state_recovery (d : Snapshot) (now : ℚ) (h : d.last_update ≤ now) :
    (d.running = true →
      (load_state (.snapshot d) now).seconds =
        max 0 (d.seconds - ⌊now - d.last_update⌋) ∧
      ((load_state (.snapshot d) now).running = true ↔
        0 < (load_state (.snapshot d) now).seconds) ∧
      (load_state (.snapshot d) now).last_update = now) ∧
    (d.running = false →
      load_state (.snapshot d) now = ⟨d.seconds, false, now⟩) := by
  constructor
  · intro hr
    have he : max 0 (now - d.last_update) = now - d.last_update :=
      max_eq_right (sub_nonneg.mpr h)
    have hp : pyInt (max 0 (now - d.last_update)) = ⌊now - d.last_update⌋ := by
      rw [he]
      exact pyInt_of_nonneg _ (sub_nonneg.mpr h)
    refine ⟨?_, ?_, ?_⟩ <;> simp [load_state, hr, hp]
  · intro hr
    simp [load_state, hr]

/-- Claim C3, witness: the recovery theorem applied to the snapshot
`{seconds = 100, running = true, last_update = 0}` loaded at `now = 30`. -/
theorem load_state_recovery_witness :
    (load_state (.snapshot ⟨100, true, 0⟩) 30).seconds =
      max 0 (100 - ⌊(30 : ℚ) - 0⌋) ∧
    ((load_state (.snapshot ⟨100, true, 0⟩) 30).running = true ↔
      0 < (load_state (.snapshot ⟨100, true, 0⟩) 30).seconds) ∧
    (load_state (.snapshot ⟨100, true, 0⟩) 30).last_update = 30 :=
  (load_state_recovery ⟨100, true, 0⟩ 30 (by norm_num)).1 rfl

/-- Concrete recovery check from the spec: snapshot
`{seconds = 100, running = true, last_update = T}` loaded at `T + 30` yields
`{seconds = 70, running = true}`. -/
theorem load_state_recovery_example :
    load_state (.snapshot ⟨100, true, 0⟩) 30 = ⟨70, true, 30⟩ := by
  norm_num [load_state, pyInt]

/-- Concrete recovery check from the spec: when the elapsed downtime exceeds
the saved seconds, recovery yields `{seconds = 0, running = false}`. -/
theorem load_state_recovery_expired_example :
    load_state (.snapshot ⟨100, true, 0⟩) 200 = ⟨0, false, 200⟩ := by
  norm_num [load_state, pyInt]

/-! ## Claim C7 -/

/-- Claim C7: one broadcast pass delivers the payload to exactly the
registered connections whose send does not fail (a failing connection never
prevents delivery to the others), and the registry left after the pass
consists of exactly the non-failing connections — the failing ones, and only
they, have been removed, by removals applied after the iteration completes. -/
theorem broadcast_isolation (clients : List ℕ) (failsSend : ℕ → Bool) :
    (broadcastPass clients failsSend).1 =
      clients.filter (fun ws => !failsSend ws) ∧
    (broadcastPass clients failsSend).2 =
      clients.filter (fun ws => !failsSend ws) := by
  constructor
  · show (broadcastSends clients failsSend).1 = _
    rw [broadcastSends, foldl_sendStep_fst failsSend clients ([], [])]
    rfl
  · show applyRemovals clients (broadcastSends clients failsSend).2 = _
    rw [applyRemovals]
    apply List.filter_congr
    intro a ha
    cases hd : failsSend a
    · have hnot : a ∉ (broadcastSends clients failsSend).2 := by
        rw [broadcastSends]
        intro hmem
        rcases (foldl_sendStep_snd_mem failsSend clients ([], []) a).mp hmem with
          h | ⟨_, hft⟩
        · simp at h
        · rw [hd] at hft
          cases hft
      simp [hnot]
    · have hmem : a ∈ (broadcastSends clients failsSend).2 := by
        rw [broadcastSends]
        exact (foldl_sendStep_snd_mem failsSend clients ([], []) a).mpr
          (Or.inr ⟨ha, hd⟩)
      simp [hmem]

/-! ## Claim C8 -/

/-- Claim C8: a request to `/adjust` or `/set` whose required parameter is
missing or not a valid integer gets the client-error response and leaves the
whole world — in-memory `seconds`, `running`, `last_update` and the persisted
snapshot — unchanged. -/
theorem invalid_params_no_mutation (w : World) (p : QueryParam) (now : ℚ)
    (h : p = .missing ∨ p = .invalid) :
    adjust_timer w p now = (w, .clientError) ∧
    set_timer w p now = (w, .clientError) := by
  rcases h with h | h <;> subst h <;> exact ⟨rfl, rfl⟩

/-- Claim C8, witness: the no-mutation theorem applied to a missing parameter
against a concrete world. -/
theorem invalid_params_no_mutation_witness :
    adjust_timer ⟨⟨4, true, 0⟩, .absent⟩ .missing 5 =
      (⟨⟨4, true, 0⟩, .absent⟩, .clientError) ∧
    set_timer ⟨⟨4, true, 0⟩, .absent⟩ .missing 5 =
      (⟨⟨4, true, 0⟩, .absent⟩, .clientError) :=
  invalid_params_no_mutation ⟨⟨4, true, 0⟩, .absent⟩ .missing 5 (Or.inl rfl)

/-! ## Claim C9 -/

/-- Claim C9: a `/set` request with a negative integer value is not rejected:
it succeeds with status `"set"` (constructor `settled`), stores
`seconds = max(0, v) = 0` with `running` unchanged, and persists that state
to the snapshot file. -/
theorem set_negative_floors_to_zero (w : World) (v : ℤ) (now : ℚ)
    (h : v < 0) :
    set_timer w (.value v) now =
      (⟨⟨0, w.state.running, now⟩, .snapshot ⟨0, w.state.running, now⟩⟩,
        .ok .settled 0) := by
  have hm : max 0 v = 0 := max_eq_left h.le
  simp [set_timer, save_state, hm]

/-- Claim C9, witness: the flooring theorem applied to `seconds = -5` against
a concrete world. -/
theorem set_negative_floors_to_zero_witness :
    set_timer ⟨⟨3, true, 0⟩, .absent⟩ (.value (-5)) 1 =
      (⟨⟨0, true, 1⟩, .snapshot ⟨0, true, 1⟩⟩, .ok .settled 0) :=
  set_negative_floors_to_zero ⟨⟨3, true, 0⟩, .absent⟩ (-5) 1 (by norm_num)

/-! ## Claim C10 -/

/-- Claim C10: for every running state of the data model (`seconds ≥ 0`) and
every tick whose elapsed wall-clock time lies in `[0, 1)`, the tick leaves
`seconds` unchanged yet still advances `last_update` to `now`: the fractional
elapsed time is truncated away by `int()`, not accumulated. -/
theorem tick_subsecond_elapsed (s : TimerState) (now : ℚ)
    (hr : s.running = true) (h0 : 0 ≤ s.seconds)
    (h1 : s.last_update ≤ now) (h2 : now - s.last_update < 1) :
    (tick s now).seconds = s.seconds ∧ (tick s now).last_update = now := by
  have hz : pyInt (now - s.last_update) = 0 :=
    pyInt_eq_zero _ (sub_nonneg.mpr h1) h2
  simp [tick, hr, hz, max_eq_right h0]

/-- Claim C10, witness: the sub-second theorem applied at the running state
`{seconds = 5, last_update = 0}` ticked at `now = 1/2`. -/
theorem tick_subsecond_elapsed_witness :
    (tick ⟨5, true, 0⟩ (1 / 2)).seconds = (TimerState.mk 5 true 0).seconds ∧
    (tick ⟨5, true, 0⟩ (1 / 2)).last_update = 1 / 2 :=
  tick_subsecond_elapsed ⟨5, true, 0⟩ (1 / 2) rfl (by norm_num) (by norm_num)
    (by norm_num)
